import Mathlib

/-!
Verification development for the customer-support script
(`src/customer_support.py`).

The script's own logic is small: an environment-variable credential check,
a process-wide model-name environment mutation, construction of two agent
descriptors, one scrape tool and two task descriptors handed to an external
orchestrator, and a Markdown output writer.  We embed each piece shallowly:

* the process environment is a map `String → Option String`
  (`os.getenv k` is `env k`);
* the filesystem is an explicit state `FS` holding a directory predicate
  and a file map, plus injectable failures standing for external
  filesystem errors (permission denied, disk full, ...);
* the wall clock and the random uuid are values observed by the call
  (`datetime.now(timezone.utc)` becomes a `DateTimeUTC` argument and
  `uuid.uuid4()` a 128-bit natural number);
* the agent/task/crew descriptors are plain structures mirroring the
  keyword fields the source passes to the crewai constructors.
-/

/-- Models a Python `RuntimeError` carrying its message. -/
structure RuntimeError where
  msg : String
deriving DecidableEq

/-- `ENV_OPENAI_API_KEY = "OPENAI_API_KEY"` from the source. -/
def ENV_OPENAI_API_KEY : String := "OPENAI_API_KEY"

/-- Shallow embedding of `get_openai_api_key`.  `os.getenv` is the lookup
`env ENV_OPENAI_API_KEY`; Python's `if not api_key:` is true exactly when the
variable is unset (`none`) or the empty string.  The raised `RuntimeError`
message is reproduced verbatim. -/
def get_openai_api_key (env : String → Option String) : Except RuntimeError String :=
  let api_key := env ENV_OPENAI_API_KEY
  match api_key with
  | none =>
      Except.error ⟨"Missing " ++ ENV_OPENAI_API_KEY ++ ". Set it in your environment, e.g.,\n"
        ++ "export " ++ ENV_OPENAI_API_KEY ++ "='YOUR_KEY_HERE'"⟩
  | some s =>
      if s = "" then
        Except.error ⟨"Missing " ++ ENV_OPENAI_API_KEY ++ ". Set it in your environment, e.g.,\n"
          ++ "export " ++ ENV_OPENAI_API_KEY ++ "='YOUR_KEY_HERE'"⟩
      else
        Except.ok s

/-- The startup sequence of the script after the imports:
`openai_api_key = get_openai_api_key()` followed by
`os.environ["OPENAI_MODEL_NAME"] = "gpt-3.5-turbo"`.
Returns the retrieved key together with the updated process environment. -/
def script_startup (env : String → Option String) :
    Except RuntimeError (String × (String → Option String)) :=
  match get_openai_api_key env with
  | Except.error e => Except.error e
  | Except.ok key =>
      Except.ok (key, fun k => if k = "OPENAI_MODEL_NAME" then some "gpt-3.5-turbo" else env k)

/-- Models a filesystem error (`OSError`: permission denied, disk full, ...)
raised by the underlying directory-creation or write primitive. -/
structure FsError where
  msg : String
deriving DecidableEq

/-- Explicit filesystem state.  `dirs` says which directory paths exist,
`files` maps a file path to its text.  `mkdirErr`/`writeErr` inject an
external failure into the next `mkdir`/`write_text` primitive, modelling
filesystem errors outside the program's control. -/
structure FS where
  dirs : String → Bool
  files : String → Option String
  mkdirErr : Option FsError
  writeErr : Option FsError

/-- A filesystem with no directories, no files and no injected failures. -/
def FS.empty : FS :=
  { dirs := fun _ => false, files := fun _ => none, mkdirErr := none, writeErr := none }

/-- `p` is the path `d` itself or an ancestor directory of it
(a strict prefix of `d` ending at a path separator). -/
def isPathAncestor (p d : String) : Bool :=
  p = d || List.isPrefixOf (p.data ++ [Char.ofNat 47]) d.data

/-- `Path(d).mkdir(parents=True, exist_ok=True)`: on success the directory
`d` and all its ancestors exist; existing directories are untouched and an
already-present `d` is not an error. -/
def FS.mkdirParents (fs : FS) (d : String) : Except FsError FS :=
  match fs.mkdirErr with
  | some e => Except.error e
  | none => Except.ok { fs with dirs := fun p => isPathAncestor p d || fs.dirs p }

/-- `Path(p).write_text(text, encoding="utf-8")`: creates or overwrites the
file at `p` with exactly `text`. -/
def FS.writeText (fs : FS) (p : String) (text : String) : Except FsError FS :=
  match fs.writeErr with
  | some e => Except.error e
  | none =>
      Except.ok { fs with files := fun q => if q = p then some text else fs.files q }

/-- A Python value passed as `content`: either a string, or a non-string
object of which we only observe its textual form `str(object)`. -/
inductive PyVal where
  | str (s : String)
  | nonStr (textForm : String)

/-- The coercion performed by `if not isinstance(content, str): content =
str(content)` followed by use as a string. -/
def pyStr : PyVal → String
  | PyVal.str s => s
  | PyVal.nonStr t => t

/-- The file name `f"customer_support_{ts}_{uid}.md"`. -/
def outputFileName (ts uid : String) : String :=
  "customer_support_" ++ ts ++ "_" ++ uid ++ ".md"

/-- The header prepended to the content, verbatim from the source (Python
merges the adjacent f-string literals into one). -/
def outputHeader (ts uid : String) : String :=
  "# Customer Support Response\n\nGenerated: " ++ ts ++ " UTC\nRun ID: " ++ uid ++ "\n\n"

/-- Shallow embedding of `save_output_markdown`.  The timestamp `ts` is the
value `datetime.now(timezone.utc).strftime("%Y%m%dT%H%M%SZ")` observed by the
call and `uid` the value `uuid.uuid4().hex[:8]`; both are parameters of the
embedding.  `base / name` is modelled as `outputs_dir ++ "/" ++ name`. -/
def save_output_markdown (fs : FS) (ts uid : String) (content : PyVal)
    (outputs_dir : String := "outputs") : Except FsError (String × FS) := do
  let base ← fs.mkdirParents outputs_dir
  let file_path := outputs_dir ++ "/" ++ outputFileName ts uid
  let header := outputHeader ts uid
  let content := pyStr content
  let fs2 ← base.writeText file_path (header ++ content)
  return (file_path, fs2)

/-- Big-endian digit characters of `n` in base `b` (lowercase letters above
9, as Python formats them), with explicit fuel for structural recursion.
The fuel only bounds the recursion depth; `digitsBase` supplies enough. -/
def digitsAux (fuel b n : Nat) : List Char :=
  match fuel with
  | 0 => []
  | fuel' + 1 =>
      if n < b then [Nat.digitChar n]
      else digitsAux fuel' b (n / b) ++ [Nat.digitChar (n % b)]

/-- Big-endian base-`b` rendering of `n`, as Python renders integers
(lowercase hex above 9, `"0"` for zero). -/
def digitsBase (b n : Nat) : List Char :=
  digitsAux (n + 1) b n

/-- Left-pad a character list with `Char.ofNat 48` (the digit zero) to width
`w`, as Python zero-padded formatting does. -/
def padLeftZeros (w : Nat) (l : List Char) : List Char :=
  List.replicate (w - l.length) (Char.ofNat 48) ++ l

/-- `n` rendered in decimal and zero-padded to width `w` (Python `%02d`
style formatting, as used by `strftime` for each timestamp field). -/
def zfill (w n : Nat) : String :=
  ⟨padLeftZeros w (digitsBase 10 n)⟩

/-- A UTC wall-clock instant at second precision, the observable value of
`datetime.now(timezone.utc)`. -/
structure DateTimeUTC where
  year : Nat
  month : Nat
  day : Nat
  hour : Nat
  minute : Nat
  second : Nat

/-- The instant is a calendar-valid datetime in the four-digit-year era
(every instant an actual run can observe). -/
def DateTimeUTC.valid (t : DateTimeUTC) : Prop :=
  1000 ≤ t.year ∧ t.year ≤ 9999 ∧ 1 ≤ t.month ∧ t.month ≤ 12 ∧
  1 ≤ t.day ∧ t.day ≤ 31 ∧ t.hour ≤ 23 ∧ t.minute ≤ 59 ∧ t.second ≤ 59

/-- `datetime.strftime("%Y%m%dT%H%M%SZ")`: four-digit year, two-digit month,
day, hour, minute and second, all zero-padded, with literal `T` and `Z`. -/
def strftimeTs (t : DateTimeUTC) : String :=
  zfill 4 t.year ++ zfill 2 t.month ++ zfill 2 t.day ++ "T" ++
  zfill 2 t.hour ++ zfill 2 t.minute ++ zfill 2 t.second ++ "Z"

/-- `uuid.uuid4().hex[:8]` for the drawn 128-bit value `n`: the first eight
characters of the 32-character zero-padded lowercase hex rendering. -/
def uuidHex8 (n : Nat) : String :=
  ⟨(padLeftZeros 32 (digitsBase 16 n)).take 8⟩

/-- A decimal digit character (regex class `\d` over ASCII). -/
def isDigitChar (c : Char) : Bool :=
  Char.ofNat 48 ≤ c && c ≤ Char.ofNat 57

/-- A lowercase hexadecimal digit character (regex class `[0-9a-f]`). -/
def isLowerHexChar (c : Char) : Bool :=
  isDigitChar c || (Char.ofNat 97 ≤ c && c ≤ Char.ofNat 102)

/-- The spec's file-name regex `customer_support_\d{8}T\d{6}Z_[0-9a-f]{8}\.md`,
stated over the characters of the name: this definition follows the spec's
words and is compared against the name the code builds. -/
def specFileNamePattern (name : String) : Prop :=
  ∃ d8 d6 h8 : List Char,
    name.data = "customer_support_".data ++ d8 ++ "T".data ++ d6 ++ "Z_".data
      ++ h8 ++ ".md".data ∧
    d8.length = 8 ∧ d6.length = 6 ∧ h8.length = 8 ∧
    (∀ c ∈ d8, isDigitChar c = true) ∧
    (∀ c ∈ d6, isDigitChar c = true) ∧
    (∀ c ∈ h8, isLowerHexChar c = true)

/-- An agent descriptor: the keyword fields the source passes to the crewai
`Agent` constructor.  Adjacent Python string literals are merged, exactly as
Python concatenates them. -/
structure Agent where
  role : String
  goal : String
  backstory : String
  allow_delegation : Bool
  verbose : Bool
deriving DecidableEq

/-- `create_support_agent`, with its default `allow_delegation=False`,
`verbose=True`. -/
def create_support_agent (allow_delegation : Bool := false)
    (verbose : Bool := true) : Agent :=
  { role := "Senior Support Representative",
    goal := "Be the most friendly and helpful support representative in your team",
    backstory := "You work at crewAI (https://crewai.com) and are now working on providing support to {customer}, a super important customer for your company. You need to make sure that you provide the best support! Make sure to provide full complete answers, and make no assumptions.",
    allow_delegation := allow_delegation,
    verbose := verbose }

/-- `create_quality_assurance_agent`, with its default
`allow_delegation=True`, `verbose=True`. -/
def create_quality_assurance_agent (allow_delegation : Bool := true)
    (verbose : Bool := true) : Agent :=
  { role := "Support Quality Assurance Specialist",
    goal := "Get recognition for providing the best support quality assurance in your team",
    backstory := "You work at crewAI (https://crewai.com) and are now working with your team on a request from {customer} ensuring that the support representative is providing the best support possible.\nYou need to make sure that the support representative is providing fullcomplete answers, and make no assumptions.",
    allow_delegation := allow_delegation,
    verbose := verbose }

/-- `support_agent = create_support_agent()` (defaults used). -/
def support_agent : Agent := create_support_agent

/-- `qa_agent = create_quality_assurance_agent(allow_delegation=True)`. -/
def qa_agent : Agent := create_quality_assurance_agent true

/-- The scraping tool descriptor (`ScrapeWebsiteTool(website_url=url)`). -/
structure ScrapeWebsiteTool where
  website_url : String
deriving DecidableEq

/-- `create_scrape_tool`. -/
def create_scrape_tool (url : String) : ScrapeWebsiteTool :=
  { website_url := url }

/-- `scrape_tool = create_scrape_tool(url=...)`. -/
def scrape_tool : ScrapeWebsiteTool :=
  create_scrape_tool "https://docs.crewai.com/how-to/Creating-a-Crew-and-kick-it-off/"

/-- A task descriptor: the keyword fields the source passes to the crewai
`Task` constructor (named `CrewTask` here since Lean reserves `Task`).  A `Task` built without a `tools` argument gets the
crewai default of no tools, modelled as the empty list. -/
structure CrewTask where
  description : String
  expected_output : String
  tools : List ScrapeWebsiteTool
  agent : Agent
deriving DecidableEq

/-- `create_inquiry_resolution_task`. -/
def create_inquiry_resolution_task (agent : Agent)
    (tools : List ScrapeWebsiteTool) : CrewTask :=
  { description := "{customer} just reached out with a super important ask:\n{inquiry}\n\n{person} from {customer} is the one that reached out. Make sure to use everything you know to provide the best support possible.You must strive to provide a complete and accurate response to the customer's inquiry.",
    expected_output := "A detailed, informative response to the customer's inquiry that addresses all aspects of their question.\nThe response should include references to everything you used to find the answer, including external data or solutions. Ensure the answer is complete, leaving no questions unanswered, and maintain a helpful and friendly tone throughout.",
    tools := tools,
    agent := agent }

/-- `create_quality_assurance_review_task` (no tools argument: crewai
default, no tools). -/
def create_quality_assurance_review_task (agent : Agent) : CrewTask :=
  { description := "Review the response drafted by the Senior Support Representative for {customer}'s inquiry. Ensure that the answer is comprehensive, accurate, and adheres to the high-quality standards expected for customer support.\nVerify that all parts of the customer's inquiry have been addressed thoroughly, with a helpful and friendly tone.\nCheck for references and sources used to  find the information, ensuring the response is well-supported and leaves no questions unanswered.",
    expected_output := "A final, detailed, and informative response ready to be sent to the customer.\nThis response should fully address the customer's inquiry, incorporating all relevant feedback and improvements.\nDon't be too formal, we are a chill and cool company but maintain a professional and friendly tone throughout.",
    tools := [],
    agent := agent }

/-- `inquiry_resolution = create_inquiry_resolution_task(agent=support_agent,
tools=[scrape_tool])`. -/
def inquiry_resolution : CrewTask :=
  create_inquiry_resolution_task support_agent [scrape_tool]

/-- `quality_assurance_review =
create_quality_assurance_review_task(agent=qa_agent)`. -/
def quality_assurance_review : CrewTask :=
  create_quality_assurance_review_task qa_agent

/-- The execution mode of a crewai `Crew`; the source passes none, so the
crewai default, sequential, applies. -/
inductive CrewProcess where
  | sequential
  | hierarchical
deriving DecidableEq

/-- A crew descriptor: the keyword fields the source passes to `Crew`,
plus the process mode defaulted by the framework. -/
structure Crew where
  agents : List Agent
  tasks : List CrewTask
  verbose : Bool
  memory : Bool
  process : CrewProcess
deriving DecidableEq

/-- The `crew = Crew(...)` value built by the script. -/
def crew : Crew :=
  { agents := [support_agent, qa_agent],
    tasks := [inquiry_resolution, quality_assurance_review],
    verbose := true,
    memory := true,
    process := CrewProcess.sequential }

/-- The run-input mapping `inputs` the script builds (adjacent literals
merged). -/
structure RunInputs where
  customer : String
  person : String
  inquiry : String
deriving DecidableEq

/-- The `inputs` dictionary of the script. -/
def inputs : RunInputs :=
  { customer := "DeepLearningAI",
    person := "Andrew Ng",
    inquiry := "I need help with setting up a Crew and kicking it off, specifically how can I add memory to my crew? Can you provide guidance?" }

/-- The script's trace of orchestrator invocations: the straight-line module
body executes `crew.kickoff(inputs=inputs)` exactly once. -/
def crew_kickoff_calls : List (Crew × RunInputs) := [(crew, inputs)]

/-- Helper: every character produced by `digitsAux` is the digit character
of a value below the base. -/
theorem digitsAux_chars (fuel b : Nat) (hb : 0 < b) :
    ∀ n : Nat, ∀ c ∈ digitsAux fuel b n, ∃ d : Nat, d < b ∧ c = Nat.digitChar d := by
  induction fuel with
  | zero =>
    intro n c hc
    simp [digitsAux] at hc
  | succ fuel ih =>
    intro n c hc
    unfold digitsAux at hc
    by_cases h : n < b
    · simp [h] at hc
      exact ⟨n, h, hc⟩
    · simp [h] at hc
      rcases hc with hc | hc
      · exact ih (n / b) c hc
      · exact ⟨n % b, Nat.mod_lt n hb, hc⟩

/-- Helper: a value below `b ^ k` has at most `k` digit characters in base
`b`, for any fuel. -/
theorem digitsAux_length_le (fuel b : Nat) (hb : 2 ≤ b) :
    ∀ n k : Nat, 1 ≤ k → n < b ^ k → (digitsAux fuel b n).length ≤ k := by
  induction fuel with
  | zero =>
    intro n k _ _
    simp [digitsAux]
  | succ fuel ih =>
    intro n k hk hn
    unfold digitsAux
    by_cases h : n < b
    · simp [h]
      exact hk
    · have hk2 : 2 ≤ k := by
        rcases Nat.lt_or_ge k 2 with hlt | hge
        · exfalso
          have hk1 : k = 1 := by omega
          subst hk1
          simp [pow_one] at hn
          omega
        · exact hge
      have hb0 : 0 < b := by omega
      have hdiv : n / b < b ^ (k - 1) := by
        rw [Nat.div_lt_iff_lt_mul hb0, ← pow_succ]
        have hkk : k - 1 + 1 = k := by omega
        rw [hkk]
        exact hn
      have hrec := ih (n / b) (k - 1) (by omega) hdiv
      simp [h, List.length_append]
      omega

/-- Helper: `digitsBase` facts, specialised from the fuelled recursion. -/
theorem digitsBase_chars (b n : Nat) (hb : 0 < b) :
    ∀ c ∈ digitsBase b n, ∃ d : Nat, d < b ∧ c = Nat.digitChar d :=
  digitsAux_chars (n + 1) b hb n

/-- Helper: length bound for `digitsBase`. -/
theorem digitsBase_length_le (b n k : Nat) (hb : 2 ≤ b) (hk : 1 ≤ k)
    (hn : n < b ^ k) : (digitsBase b n).length ≤ k :=
  digitsAux_length_le (n + 1) b hb n k hk hn

/-- Helper: digit characters below ten are decimal digits. -/
theorem digitChar_isDigit (d : Nat) (hd : d < 10) :
    isDigitChar (Nat.digitChar d) = true := by
  interval_cases d <;> decide

/-- Helper: digit characters below sixteen are lowercase hex digits. -/
theorem digitChar_isLowerHex (d : Nat) (hd : d < 16) :
    isLowerHexChar (Nat.digitChar d) = true := by
  interval_cases d <;> decide

/-- Helper: padding to width `w` yields exactly `w` characters when the list
is no longer than `w`. -/
theorem padLeftZeros_length (w : Nat) (l : List Char) (h : l.length ≤ w) :
    (padLeftZeros w l).length = w := by
  simp [padLeftZeros]
  omega

/-- Helper: every character of a padded list is the zero digit or a
character of the original list. -/
theorem padLeftZeros_mem (w : Nat) (l : List Char) :
    ∀ c ∈ padLeftZeros w l, c = Char.ofNat 48 ∨ c ∈ l := by
  intro c hc
  simp [padLeftZeros, List.mem_replicate] at hc
  tauto

/-- Helper: `zfill w n` has exactly `w` characters when `n < 10 ^ w`. -/
theorem zfill_length (w n : Nat) (hw : 1 ≤ w) (h : n < 10 ^ w) :
    (zfill w n).data.length = w := by
  unfold zfill
  exact padLeftZeros_length w _ (digitsBase_length_le 10 n w (by norm_num) hw h)

/-- Helper: every character of `zfill w n` is a decimal digit. -/
theorem zfill_digits (w n : Nat) :
    ∀ c ∈ (zfill w n).data, isDigitChar c = true := by
  intro c hc
  unfold zfill at hc
  rcases padLeftZeros_mem w _ c hc with h0 | hd
  · subst h0
    decide
  · obtain ⟨d, hdlt, rfl⟩ := digitsBase_chars 10 n (by norm_num) c hd
    exact digitChar_isDigit d hdlt

/-- Helper: the run id has exactly eight characters. -/
theorem uuidHex8_length (n : Nat) (h : n < 2 ^ 128) :
    (uuidHex8 n).data.length = 8 := by
  have h16 : n < 16 ^ 32 := by
    rw [show (16 : Nat) ^ 32 = 2 ^ 128 from by norm_num]
    exact h
  have hlen := digitsBase_length_le 16 n 32 (by norm_num) (by norm_num) h16
  unfold uuidHex8
  simp [List.length_take, padLeftZeros_length 32 _ hlen]

/-- Helper: every character of the run id is a lowercase hex digit. -/
theorem uuidHex8_chars (n : Nat) :
    ∀ c ∈ (uuidHex8 n).data, isLowerHexChar c = true := by
  intro c hc
  unfold uuidHex8 at hc
  have hc2 : c ∈ padLeftZeros 32 (digitsBase 16 n) := List.take_subset _ _ hc
  rcases padLeftZeros_mem 32 _ c hc2 with h0 | hd
  · subst h0
    decide
  · obtain ⟨d, hdlt, rfl⟩ := digitsBase_chars 16 n (by norm_num) c hd
    exact digitChar_isLowerHex d hdlt

/-- Helper: the built file name matches the spec's regex when the timestamp
comes from a valid instant and the run id from a 128-bit value. -/
theorem outputFileName_pattern (t : DateTimeUTC) (n : Nat) (hv : t.valid)
    (hn : n < 2 ^ 128) :
    specFileNamePattern (outputFileName (strftimeTs t) (uuidHex8 n)) := by
  obtain ⟨hy1, hy2, hmo1, hmo2, hd1, hd2, hh, hmi, hs⟩ := hv
  have hy : t.year < 10 ^ 4 := by
    rw [show (10 : Nat) ^ 4 = 10000 from by norm_num]
    omega
  have hmo : t.month < 10 ^ 2 := by
    rw [show (10 : Nat) ^ 2 = 100 from by norm_num]
    omega
  have hd : t.day < 10 ^ 2 := by
    rw [show (10 : Nat) ^ 2 = 100 from by norm_num]
    omega
  have hho : t.hour < 10 ^ 2 := by
    rw [show (10 : Nat) ^ 2 = 100 from by norm_num]
    omega
  have hmin : t.minute < 10 ^ 2 := by
    rw [show (10 : Nat) ^ 2 = 100 from by norm_num]
    omega
  have hsec : t.second < 10 ^ 2 := by
    rw [show (10 : Nat) ^ 2 = 100 from by norm_num]
    omega
  refine ⟨(zfill 4 t.year).data ++ (zfill 2 t.month).data ++ (zfill 2 t.day).data,
    (zfill 2 t.hour).data ++ (zfill 2 t.minute).data ++ (zfill 2 t.second).data,
    (uuidHex8 n).data, ?_, ?_, ?_, ?_, ?_, ?_, ?_⟩
  · have hZ : ("Z_" : String).data = ("Z" : String).data ++ ("_" : String).data := rfl
    simp [outputFileName, strftimeTs, String.data_append, hZ, List.append_assoc]
  · simp [List.length_append, zfill_length 4 t.year (by norm_num) hy,
      zfill_length 2 t.month (by norm_num) hmo, zfill_length 2 t.day (by norm_num) hd]
  · simp [List.length_append, zfill_length 2 t.hour (by norm_num) hho,
      zfill_length 2 t.minute (by norm_num) hmin,
      zfill_length 2 t.second (by norm_num) hsec]
  · exact uuidHex8_length n hn
  · intro c hc
    simp [List.mem_append] at hc
    rcases hc with hc | hc | hc
    · exact zfill_digits 4 t.year c hc
    · exact zfill_digits 2 t.month c hc
    · exact zfill_digits 2 t.day c hc
  · intro c hc
    simp [List.mem_append] at hc
    rcases hc with hc | hc | hc
    · exact zfill_digits 2 t.hour c hc
    · exact zfill_digits 2 t.minute c hc
    · exact zfill_digits 2 t.second c hc
  · exact uuidHex8_chars n

/-- Helper: the success case of the credential lookup. -/
theorem get_openai_api_key_ok (env : String → Option String) (s : String)
    (hs : env ENV_OPENAI_API_KEY = some s) (hne : s ≠ "") :
    get_openai_api_key env = Except.ok s := by
  unfold get_openai_api_key
  rw [hs]
  simp [hne]

/-- Helper: the failure case of the credential lookup. -/
theorem get_openai_api_key_err (env : String → Option String)
    (h : env ENV_OPENAI_API_KEY = none ∨ env ENV_OPENAI_API_KEY = some "") :
    get_openai_api_key env =
      Except.error ⟨"Missing OPENAI_API_KEY. Set it in your environment, e.g.,\n"
        ++ "export OPENAI_API_KEY='YOUR_KEY_HERE'"⟩ := by
  rcases h with h | h <;> unfold get_openai_api_key <;> rw [h] <;> rfl

/-- C2: if `OPENAI_API_KEY` is set to a non-empty string the function returns
exactly that string; if it is unset or empty it fails with a `RuntimeError`
whose message carries the remediation guidance (the `export` hint).  Being a
pure function of `env`, it has no side effects in the model. -/
theorem get_openai_api_key_spec (env : String → Option String) :
    (∀ s : String, env ENV_OPENAI_API_KEY = some s → s ≠ "" →
      get_openai_api_key env = Except.ok s) ∧
    ((env ENV_OPENAI_API_KEY = none ∨ env ENV_OPENAI_API_KEY = some "") →
      get_openai_api_key env =
        Except.error ⟨"Missing OPENAI_API_KEY. Set it in your environment, e.g.,\n"
          ++ "export OPENAI_API_KEY='YOUR_KEY_HERE'"⟩) := by
  exact ⟨fun s hs hne => get_openai_api_key_ok env s hs hne,
    fun h => get_openai_api_key_err env h⟩

/-- Witness for C2 at concrete environments: one where the key is set to
"sk-test", one where it is absent. -/
theorem get_openai_api_key_spec_witness :
    get_openai_api_key (fun k => if k = "OPENAI_API_KEY" then some "sk-test" else none)
      = Except.ok "sk-test" ∧
    get_openai_api_key (fun _ => none) =
      Except.error ⟨"Missing OPENAI_API_KEY. Set it in your environment, e.g.,\n"
        ++ "export OPENAI_API_KEY='YOUR_KEY_HERE'"⟩ := by
  constructor
  · exact (get_openai_api_key_spec
      (fun k => if k = "OPENAI_API_KEY" then some "sk-test" else none)).1
        "sk-test" (by decide) (by decide)
  · exact (get_openai_api_key_spec (fun _ => none)).2 (Or.inl rfl)

/-- C7: after a successful credential check, startup sets exactly the
environment variable `OPENAI_MODEL_NAME`, to `"gpt-3.5-turbo"`, and leaves
every other variable unchanged. -/
theorem script_startup_env_effect (env : String → Option String) (s : String)
    (hs : env ENV_OPENAI_API_KEY = some s) (hne : s ≠ "") :
    ∃ env2 : String → Option String,
      script_startup env = Except.ok (s, env2) ∧
      env2 "OPENAI_MODEL_NAME" = some "gpt-3.5-turbo" ∧
      ∀ k : String, k ≠ "OPENAI_MODEL_NAME" → env2 k = env k := by
  refine ⟨fun k => if k = "OPENAI_MODEL_NAME" then some "gpt-3.5-turbo" else env k, ?_, ?_, ?_⟩
  · unfold script_startup
    rw [get_openai_api_key_ok env s hs hne]
  · rfl
  · intro k hk
    simp [hk]

/-- Helper: on a filesystem with no injected failures, `save_output_markdown`
succeeds, returns the joined path, and writes header-plus-content there,
touching no other file. -/
theorem save_output_markdown_ok (fs : FS) (ts uid : String) (content : PyVal)
    (dir : String) (hm : fs.mkdirErr = none) (hw : fs.writeErr = none) :
    ∃ fs2 : FS,
      save_output_markdown fs ts uid content dir
        = Except.ok (dir ++ "/" ++ outputFileName ts uid, fs2) ∧
      fs2.files (dir ++ "/" ++ outputFileName ts uid)
        = some (outputHeader ts uid ++ pyStr content) ∧
      (∀ q : String, q ≠ dir ++ "/" ++ outputFileName ts uid → fs2.files q = fs.files q) ∧
      fs2.dirs = (fun p => isPathAncestor p dir || fs.dirs p) ∧
      fs2.mkdirErr = fs.mkdirErr ∧ fs2.writeErr = fs.writeErr := by
  refine ⟨{ fs with
      dirs := fun p => isPathAncestor p dir || fs.dirs p,
      files := fun q => if q = dir ++ "/" ++ outputFileName ts uid
        then some (outputHeader ts uid ++ pyStr content) else fs.files q }, ?_, ?_, ?_, rfl, rfl, rfl⟩
  · unfold save_output_markdown FS.mkdirParents FS.writeText
    simp only [hm, hw]
    rfl
  · simp
  · intro q hq
    simp [hq]

/-- C3: `save_output_markdown` returns the generated path as a string —
`outputs_dir` joined with a file name matching
`customer_support_\d{8}T\d{6}Z_[0-9a-f]{8}\.md` — and writes the file at
exactly that path (no other file changes). -/
theorem save_output_markdown_path_spec (fs : FS) (t : DateTimeUTC) (n : Nat)
    (content : PyVal) (dir : String) (hv : t.valid) (hn : n < 2 ^ 128)
    (hm : fs.mkdirErr = none) (hw : fs.writeErr = none) :
    ∃ fs2 : FS,
      save_output_markdown fs (strftimeTs t) (uuidHex8 n) content dir
        = Except.ok (dir ++ "/" ++ outputFileName (strftimeTs t) (uuidHex8 n), fs2) ∧
      specFileNamePattern (outputFileName (strftimeTs t) (uuidHex8 n)) ∧
      (∃ text : String,
        fs2.files (dir ++ "/" ++ outputFileName (strftimeTs t) (uuidHex8 n)) = some text) ∧
      (∀ q : String, q ≠ dir ++ "/" ++ outputFileName (strftimeTs t) (uuidHex8 n) →
        fs2.files q = fs.files q) := by
  obtain ⟨fs2, hrun, hfile, hframe, _, _, _⟩ :=
    save_output_markdown_ok fs (strftimeTs t) (uuidHex8 n) content dir hm hw
  exact ⟨fs2, hrun, outputFileName_pattern t n hv hn, ⟨_, hfile⟩, hframe⟩

/-- Witness for C3 at the instant 2024-01-01T00:00:00Z and the 128-bit draw
whose leading eight hex digits are `1a2b3c4d`. -/
theorem save_output_markdown_path_spec_witness :
    DateTimeUTC.valid ⟨2024, 1, 1, 0, 0, 0⟩ ∧
    439041101 * 2 ^ 96 < 2 ^ 128 ∧
    FS.empty.mkdirErr = none ∧ FS.empty.writeErr = none ∧
    ∃ fs2 : FS,
      save_output_markdown FS.empty (strftimeTs ⟨2024, 1, 1, 0, 0, 0⟩)
          (uuidHex8 (439041101 * 2 ^ 96)) (PyVal.str "Hello") "outputs"
        = Except.ok ("outputs" ++ "/" ++ outputFileName (strftimeTs ⟨2024, 1, 1, 0, 0, 0⟩)
            (uuidHex8 (439041101 * 2 ^ 96)), fs2) ∧
      specFileNamePattern (outputFileName (strftimeTs ⟨2024, 1, 1, 0, 0, 0⟩)
        (uuidHex8 (439041101 * 2 ^ 96))) ∧
      (∃ text : String,
        fs2.files ("outputs" ++ "/" ++ outputFileName (strftimeTs ⟨2024, 1, 1, 0, 0, 0⟩)
          (uuidHex8 (439041101 * 2 ^ 96))) = some text) ∧
      (∀ q : String, q ≠ "outputs" ++ "/" ++ outputFileName (strftimeTs ⟨2024, 1, 1, 0, 0, 0⟩)
          (uuidHex8 (439041101 * 2 ^ 96)) →
        fs2.files q = FS.empty.files q) :=
  ⟨by norm_num [DateTimeUTC.valid], by norm_num, rfl, rfl,
    save_output_markdown_path_spec FS.empty ⟨2024, 1, 1, 0, 0, 0⟩ (439041101 * 2 ^ 96)
      (PyVal.str "Hello") "outputs" (by norm_num [DateTimeUTC.valid]) (by norm_num) rfl rfl⟩

/-- C1: for every content (string or not), the text written by
`save_output_markdown` is exactly the fixed header — title line, blank line,
`Generated: <ts> UTC`, `Run ID: <uid>`, blank line, with the same timestamp
and run id that appear in the file name — followed by the textual form of the
content. -/
theorem save_output_markdown_text (fs : FS) (ts uid : String) (content : PyVal)
    (dir : String) (hm : fs.mkdirErr = none) (hw : fs.writeErr = none) :
    ∃ fs2 : FS,
      save_output_markdown fs ts uid content dir
        = Except.ok (dir ++ "/" ++ ("customer_support_" ++ ts ++ "_" ++ uid ++ ".md"), fs2) ∧
      fs2.files (dir ++ "/" ++ ("customer_support_" ++ ts ++ "_" ++ uid ++ ".md"))
        = some ("# Customer Support Response\n\nGenerated: " ++ ts ++ " UTC\nRun ID: "
            ++ uid ++ "\n\n" ++ pyStr content) := by
  obtain ⟨fs2, hrun, hfile, _, _, _, _⟩ := save_output_markdown_ok fs ts uid content dir hm hw
  exact ⟨fs2, hrun, hfile⟩

/-- Witness for C1: the spec's example.  `save_output("Hello")` observed at
2024-01-01T00:00:00Z with run id "1a2b3c4d" writes
`outputs/customer_support_20240101T000000Z_1a2b3c4d.md` containing the header
followed by `Hello`. -/
theorem save_output_markdown_text_witness :
    FS.empty.mkdirErr = none ∧ FS.empty.writeErr = none ∧
    ∃ fs2 : FS,
      save_output_markdown FS.empty "20240101T000000Z" "1a2b3c4d" (PyVal.str "Hello") "outputs"
        = Except.ok ("outputs" ++ "/" ++ ("customer_support_" ++ "20240101T000000Z" ++ "_"
            ++ "1a2b3c4d" ++ ".md"), fs2) ∧
      fs2.files ("outputs" ++ "/" ++ ("customer_support_" ++ "20240101T000000Z" ++ "_"
          ++ "1a2b3c4d" ++ ".md"))
        = some ("# Customer Support Response\n\nGenerated: " ++ "20240101T000000Z"
            ++ " UTC\nRun ID: " ++ "1a2b3c4d" ++ "\n\n" ++ pyStr (PyVal.str "Hello")) :=
  ⟨rfl, rfl, save_output_markdown_text FS.empty "20240101T000000Z" "1a2b3c4d"
    (PyVal.str "Hello") "outputs" rfl rfl⟩

/-- Helper: with eight-character run ids, the built file name determines the
timestamp and the run id. -/
theorem outputFileName_inj (ts1 ts2 uid1 uid2 : String)
    (h1 : uid1.data.length = 8) (h2 : uid2.data.length = 8)
    (h : outputFileName ts1 uid1 = outputFileName ts2 uid2) :
    ts1 = ts2 ∧ uid1 = uid2 := by
  have hd := congrArg String.data h
  simp only [outputFileName, String.data_append, List.append_assoc] at hd
  have hd1 := List.append_cancel_left hd
  have hg1 : ts1.data ++ (("_" : String).data ++ (uid1.data ++ (".md" : String).data))
      = (ts1.data ++ ("_" : String).data) ++ (uid1.data ++ (".md" : String).data) := by
    simp [List.append_assoc]
  have hg2 : ts2.data ++ (("_" : String).data ++ (uid2.data ++ (".md" : String).data))
      = (ts2.data ++ ("_" : String).data) ++ (uid2.data ++ (".md" : String).data) := by
    simp [List.append_assoc]
  rw [hg1, hg2] at hd1
  have hlen : (uid1.data ++ (".md" : String).data).length
      = (uid2.data ++ (".md" : String).data).length := by
    simp [List.length_append, h1, h2]
  obtain ⟨hL, hR⟩ := List.append_inj' hd1 hlen
  constructor
  · exact String.ext (List.append_cancel_right hL)
  · exact String.ext (List.append_cancel_right hR)

/-- C4: for a fixed `outputs_dir`, the generated path is an injective
function of the (timestamp, run id) pair: two calls whose timestamp or run
id differ produce two distinct paths, and running them in sequence leaves
two files, the second never overwriting the first. -/
theorem save_output_markdown_no_overwrite (fs : FS) (ts1 ts2 : String)
    (n1 n2 : Nat) (c1 c2 : PyVal) (dir : String)
    (hn1 : n1 < 2 ^ 128) (hn2 : n2 < 2 ^ 128)
    (hne : ts1 ≠ ts2 ∨ uuidHex8 n1 ≠ uuidHex8 n2)
    (hm : fs.mkdirErr = none) (hw : fs.writeErr = none) :
    ∃ (fs1 fs2 : FS),
      save_output_markdown fs ts1 (uuidHex8 n1) c1 dir
        = Except.ok (dir ++ "/" ++ outputFileName ts1 (uuidHex8 n1), fs1) ∧
      save_output_markdown fs1 ts2 (uuidHex8 n2) c2 dir
        = Except.ok (dir ++ "/" ++ outputFileName ts2 (uuidHex8 n2), fs2) ∧
      dir ++ "/" ++ outputFileName ts1 (uuidHex8 n1)
        ≠ dir ++ "/" ++ outputFileName ts2 (uuidHex8 n2) ∧
      fs2.files (dir ++ "/" ++ outputFileName ts1 (uuidHex8 n1))
        = some (outputHeader ts1 (uuidHex8 n1) ++ pyStr c1) ∧
      fs2.files (dir ++ "/" ++ outputFileName ts2 (uuidHex8 n2))
        = some (outputHeader ts2 (uuidHex8 n2) ++ pyStr c2) := by
  obtain ⟨fs1, hrun1, hfile1, _, _, hme1, hwe1⟩ :=
    save_output_markdown_ok fs ts1 (uuidHex8 n1) c1 dir hm hw
  obtain ⟨fs2, hrun2, hfile2, hframe2, _, _, _⟩ :=
    save_output_markdown_ok fs1 ts2 (uuidHex8 n2) c2 dir
      (by rw [hme1]; exact hm) (by rw [hwe1]; exact hw)
  have hpath : dir ++ "/" ++ outputFileName ts1 (uuidHex8 n1)
      ≠ dir ++ "/" ++ outputFileName ts2 (uuidHex8 n2) := by
    intro hpe
    have hd := congrArg String.data hpe
    simp only [String.data_append, List.append_assoc] at hd
    have hd1 := List.append_cancel_left hd
    have hd2 := List.append_cancel_left hd1
    have hname : outputFileName ts1 (uuidHex8 n1) = outputFileName ts2 (uuidHex8 n2) :=
      String.ext hd2
    obtain ⟨hts, huid⟩ := outputFileName_inj ts1 ts2 (uuidHex8 n1) (uuidHex8 n2)
      (uuidHex8_length n1 hn1) (uuidHex8_length n2 hn2) hname
    rcases hne with hne | hne
    · exact hne hts
    · exact hne huid
  refine ⟨fs1, fs2, hrun1, hrun2, hpath, ?_, hfile2⟩
  rw [hframe2 _ hpath]
  exact hfile1

/-- C5: `save_output_markdown` ensures the output directory exists before
writing: on a filesystem whose primitives do not fail, the call succeeds
whatever directories existed before (in particular when `outputs_dir` already
exists), and afterwards `outputs_dir` and every ancestor directory of it
exist, while previously existing directories still exist. -/
theorem save_output_markdown_ensures_dir (fs : FS) (ts uid : String) (content : PyVal)
    (dir : String) (hm : fs.mkdirErr = none) (hw : fs.writeErr = none) :
    ∃ (p : String) (fs2 : FS),
      save_output_markdown fs ts uid content dir = Except.ok (p, fs2) ∧
      fs2.dirs dir = true ∧
      (∀ a : String, isPathAncestor a dir = true → fs2.dirs a = true) ∧
      (∀ a : String, fs.dirs a = true → fs2.dirs a = true) := by
  obtain ⟨fs2, hrun, _, _, hdirs, _, _⟩ := save_output_markdown_ok fs ts uid content dir hm hw
  refine ⟨_, fs2, hrun, ?_, ?_, ?_⟩
  · rw [hdirs]
    simp [isPathAncestor]
  · intro a ha
    rw [hdirs]
    simp [ha]
  · intro a ha
    rw [hdirs]
    simp [ha]

/-- Witness for C5: starting from an empty filesystem, saving into the nested
directory "outputs/depth" succeeds and both "outputs/depth" and its parent
"outputs" exist afterwards. -/
theorem save_output_markdown_ensures_dir_witness :
    FS.empty.mkdirErr = none ∧ FS.empty.writeErr = none ∧
    ∃ (p : String) (fs2 : FS),
      save_output_markdown FS.empty "20240101T000000Z" "1a2b3c4d" (PyVal.str "hi") "outputs/depth"
        = Except.ok (p, fs2) ∧
      fs2.dirs "outputs/depth" = true ∧
      (∀ a : String, isPathAncestor a "outputs/depth" = true → fs2.dirs a = true) ∧
      (∀ a : String, FS.empty.dirs a = true → fs2.dirs a = true) :=
  ⟨rfl, rfl, save_output_markdown_ensures_dir FS.empty "20240101T000000Z" "1a2b3c4d"
    (PyVal.str "hi") "outputs/depth" rfl rfl⟩

/-- C6: `save_output_markdown` has no error handling of its own: a failure of
the directory-creation primitive, or of the write primitive, propagates to
the caller unmodified (the very same error value), with no catch and no
retry. -/
theorem save_output_markdown_error_propagation (fs : FS) (ts uid : String)
    (content : PyVal) (dir : String) :
    (∀ e : FsError, fs.mkdirErr = some e →
      save_output_markdown fs ts uid content dir = Except.error e) ∧
    (∀ e : FsError, fs.mkdirErr = none → fs.writeErr = some e →
      save_output_markdown fs ts uid content dir = Except.error e) := by
  constructor
  · intro e he
    unfold save_output_markdown FS.mkdirParents
    simp only [he]
    rfl
  · intro e hm he
    unfold save_output_markdown FS.mkdirParents FS.writeText
    simp only [hm, he]
    rfl

/-- Witness for C6: a permission-denied error injected into `mkdir` (and,
separately, into `write_text`) comes back verbatim from the call. -/
theorem save_output_markdown_error_propagation_witness :
    ({ FS.empty with mkdirErr := some ⟨"permission denied"⟩ } : FS).mkdirErr
        = some ⟨"permission denied"⟩ ∧
    save_output_markdown { FS.empty with mkdirErr := some ⟨"permission denied"⟩ }
        "20240101T000000Z" "1a2b3c4d" (PyVal.str "hi") "outputs"
      = Except.error ⟨"permission denied"⟩ ∧
    save_output_markdown { FS.empty with writeErr := some ⟨"disk full"⟩ }
        "20240101T000000Z" "1a2b3c4d" (PyVal.str "hi") "outputs"
      = Except.error ⟨"disk full"⟩ :=
  ⟨rfl,
   (save_output_markdown_error_propagation { FS.empty with mkdirErr := some ⟨"permission denied"⟩ }
     "20240101T000000Z" "1a2b3c4d" (PyVal.str "hi") "outputs").1 ⟨"permission denied"⟩ rfl,
   (save_output_markdown_error_propagation { FS.empty with writeErr := some ⟨"disk full"⟩ }
     "20240101T000000Z" "1a2b3c4d" (PyVal.str "hi") "outputs").2 ⟨"disk full"⟩ rfl rfl⟩

/-- Witness for C7 at a concrete environment. -/
theorem script_startup_env_effect_witness :
    (fun k => if k = "OPENAI_API_KEY" then some "sk-test" else none) ENV_OPENAI_API_KEY
      = some "sk-test" ∧
    ∃ env2 : String → Option String,
      script_startup (fun k => if k = "OPENAI_API_KEY" then some "sk-test" else none)
        = Except.ok ("sk-test", env2) ∧
      env2 "OPENAI_MODEL_NAME" = some "gpt-3.5-turbo" ∧
      ∀ k : String, k ≠ "OPENAI_MODEL_NAME" →
        env2 k = (fun k => if k = "OPENAI_API_KEY" then some "sk-test" else none) k :=
  ⟨by decide, script_startup_env_effect
    (fun k => if k = "OPENAI_API_KEY" then some "sk-test" else none) "sk-test"
    (by decide) (by decide)⟩

/-- Witness for C4: same instant, two different 128-bit draws, on an empty
filesystem; both files are present afterwards. -/
theorem save_output_markdown_no_overwrite_witness :
    (0 : Nat) < 2 ^ 128 ∧ 439041101 * 2 ^ 96 < 2 ^ 128 ∧
    (("20240101T000000Z" : String) ≠ "20240101T000000Z" ∨
      uuidHex8 0 ≠ uuidHex8 (439041101 * 2 ^ 96)) ∧
    FS.empty.mkdirErr = none ∧ FS.empty.writeErr = none ∧
    ∃ (fs1 fs2 : FS),
      save_output_markdown FS.empty "20240101T000000Z" (uuidHex8 0) (PyVal.str "one") "outputs"
        = Except.ok ("outputs" ++ "/" ++ outputFileName "20240101T000000Z" (uuidHex8 0), fs1) ∧
      save_output_markdown fs1 "20240101T000000Z" (uuidHex8 (439041101 * 2 ^ 96))
          (PyVal.str "two") "outputs"
        = Except.ok ("outputs" ++ "/" ++ outputFileName "20240101T000000Z"
            (uuidHex8 (439041101 * 2 ^ 96)), fs2) ∧
      "outputs" ++ "/" ++ outputFileName "20240101T000000Z" (uuidHex8 0)
        ≠ "outputs" ++ "/" ++ outputFileName "20240101T000000Z" (uuidHex8 (439041101 * 2 ^ 96)) ∧
      fs2.files ("outputs" ++ "/" ++ outputFileName "20240101T000000Z" (uuidHex8 0))
        = some (outputHeader "20240101T000000Z" (uuidHex8 0) ++ pyStr (PyVal.str "one")) ∧
      fs2.files ("outputs" ++ "/" ++ outputFileName "20240101T000000Z"
          (uuidHex8 (439041101 * 2 ^ 96)))
        = some (outputHeader "20240101T000000Z" (uuidHex8 (439041101 * 2 ^ 96))
            ++ pyStr (PyVal.str "two")) :=
  ⟨by norm_num, by norm_num, Or.inr (by decide), rfl, rfl,
    save_output_markdown_no_overwrite FS.empty "20240101T000000Z" "20240101T000000Z"
      0 (439041101 * 2 ^ 96) (PyVal.str "one") (PyVal.str "two") "outputs"
      (by norm_num) (by norm_num) (Or.inr (by decide)) rfl rfl⟩

/-- C10: for two calls that observe the same timestamp and run id (and the
same `outputs_dir`), the returned path is the same and the two file texts
agree on the entire header — their first header-length characters are both
exactly the header.  The content influences only what follows. -/
theorem save_output_markdown_header_only_depends_on_ts_uid
    (fsA fsB : FS) (ts uid : String) (cA cB : PyVal) (dir : String)
    (hmA : fsA.mkdirErr = none) (hwA : fsA.writeErr = none)
    (hmB : fsB.mkdirErr = none) (hwB : fsB.writeErr = none) :
    ∃ (p : String) (fsA2 fsB2 : FS) (tA tB : String),
      save_output_markdown fsA ts uid cA dir = Except.ok (p, fsA2) ∧
      save_output_markdown fsB ts uid cB dir = Except.ok (p, fsB2) ∧
      fsA2.files p = some tA ∧ fsB2.files p = some tB ∧
      tA.data.take (outputHeader ts uid).data.length
        = tB.data.take (outputHeader ts uid).data.length ∧
      tA.data.take (outputHeader ts uid).data.length = (outputHeader ts uid).data := by
  obtain ⟨fsA2, hrunA, hfileA, _, _, _, _⟩ :=
    save_output_markdown_ok fsA ts uid cA dir hmA hwA
  obtain ⟨fsB2, hrunB, hfileB, _, _, _, _⟩ :=
    save_output_markdown_ok fsB ts uid cB dir hmB hwB
  refine ⟨dir ++ "/" ++ outputFileName ts uid, fsA2, fsB2,
    outputHeader ts uid ++ pyStr cA, outputHeader ts uid ++ pyStr cB,
    hrunA, hrunB, hfileA, hfileB, ?_, ?_⟩
  · simp [String.data_append, List.take_left]
  · simp [String.data_append, List.take_left]

/-- Witness for C10: same timestamp and run id, contents "Hello" and
"different body". -/
theorem save_output_markdown_header_only_witness :
    FS.empty.mkdirErr = none ∧ FS.empty.writeErr = none ∧
    ∃ (p : String) (fsA2 fsB2 : FS) (tA tB : String),
      save_output_markdown FS.empty "20240101T000000Z" "1a2b3c4d"
          (PyVal.str "Hello") "outputs" = Except.ok (p, fsA2) ∧
      save_output_markdown FS.empty "20240101T000000Z" "1a2b3c4d"
          (PyVal.nonStr "different body") "outputs" = Except.ok (p, fsB2) ∧
      fsA2.files p = some tA ∧ fsB2.files p = some tB ∧
      tA.data.take (outputHeader "20240101T000000Z" "1a2b3c4d").data.length
        = tB.data.take (outputHeader "20240101T000000Z" "1a2b3c4d").data.length ∧
      tA.data.take (outputHeader "20240101T000000Z" "1a2b3c4d").data.length
        = (outputHeader "20240101T000000Z" "1a2b3c4d").data :=
  ⟨rfl, rfl, save_output_markdown_header_only_depends_on_ts_uid FS.empty FS.empty
    "20240101T000000Z" "1a2b3c4d" (PyVal.str "Hello") (PyVal.nonStr "different body")
    "outputs" rfl rfl rfl rfl⟩

/-- C8: the constructed pipeline has exactly one support agent and one QA
agent, exactly two tasks — inquiry resolution assigned to the support agent
with exactly one scrape tool, then QA review assigned to the QA agent with
no tools, in that order — the process mode is sequential, and the script
kicks the orchestrator off exactly once. -/
theorem crew_pipeline_invariants :
    crew.agents = [support_agent, qa_agent] ∧
    crew.agents.length = 2 ∧
    crew.tasks = [inquiry_resolution, quality_assurance_review] ∧
    crew.tasks.length = 2 ∧
    inquiry_resolution.agent = support_agent ∧
    inquiry_resolution.tools = [scrape_tool] ∧
    inquiry_resolution.tools.length = 1 ∧
    quality_assurance_review.agent = qa_agent ∧
    quality_assurance_review.tools = [] ∧
    crew.process = CrewProcess.sequential ∧
    crew_kickoff_calls = [(crew, inputs)] ∧
    crew_kickoff_calls.length = 1 :=
  ⟨rfl, rfl, rfl, rfl, rfl, rfl, rfl, rfl, rfl, rfl, rfl, rfl⟩

/-- C9: the support agent is constructed with `allow_delegation` left at its
default `False`, the QA agent with `allow_delegation=True`, so in the
assembled crew exactly one of the two agents — the QA agent — may
delegate. -/
theorem agent_delegation_flags :
    (create_support_agent).allow_delegation = false ∧
    support_agent.allow_delegation = false ∧
    qa_agent.allow_delegation = true ∧
    crew.agents.filter (fun a => a.allow_delegation) = [qa_agent] :=
  ⟨rfl, rfl, rfl, rfl⟩
